import Mathlib

/-!
Verification of the parking-lot ticket ledger of `app.py`
(directory `tugas 2_IAE_Ghilman Arba_102022300435`).

The Python module keeps three pieces of process-wide state: the dictionary
`active_tickets` (insertion-ordered, keyed by ticket id), the integer counter
`occupied_slots_count`, and the sequence counter `next_ticket_number`.
We embed this state as the structure `Ledger`, with the dictionary rendered
as an insertion-ordered association list of `Ticket` records (each record
carries its own key, as in the source dictionary values).

Times are embedded as integer timestamps in seconds; the handlers receive the
current time as an explicit argument in place of `get_current_time()`.
Python string helpers `.strip()` and `.upper()` are embedded character-wise
as `pyStrip` and `pyToUpper`, and the f-string `f"T{n:04d}"` as
`ticketIdString` (decimal rendering zero-padded on the left to width 4).
Each Flask handler becomes a function from the ledger and its request fields
(optional, mirroring missing JSON keys) to a result paired with the new ledger.
-/

def TOTAL_SLOTS : Nat := 5

def HOURLY_RATE : Int := 3000

/-- Python `str.upper()`: uppercase every character. -/
def pyToUpper (s : String) : String := ⟨s.data.map Char.toUpper⟩

/-- Python `str.strip()`: drop leading and trailing whitespace. -/
def pyStrip (s : String) : String :=
  ⟨((s.data.dropWhile Char.isWhitespace).reverse.dropWhile Char.isWhitespace).reverse⟩

/-- One entry of the `active_tickets` dictionary. -/
structure Ticket where
  ticket_id : String
  plate_number : String
  slot_number : Nat
  entry_time : Int
  deriving DecidableEq, Repr

/-- The process-wide mutable state of `app.py`. -/
structure Ledger where
  active_tickets : List Ticket
  occupied_slots_count : Int
  next_ticket_number : Nat
  deriving DecidableEq, Repr

/-- The module-level initial state: no tickets, counter `0`, sequence `1`. -/
def initial_ledger : Ledger :=
  { active_tickets := [], occupied_slots_count := 0, next_ticket_number := 1 }

/-- Character for a decimal digit, `d < 10` intended. -/
def digitChar (d : Nat) : Char := Char.ofNat (48 + d)

/-- Decimal digit characters of `n`, most significant first; fuel-driven so
that it is structurally recursive. -/
def toDecimalAux : Nat → Nat → List Char
  | 0, _ => []
  | fuel + 1, n =>
    if n < 10 then [digitChar n]
    else toDecimalAux fuel (n / 10) ++ [digitChar (n % 10)]

/-- Decimal digit characters of `n` (the rendering of Python `str(n)`). -/
def toDecimal (n : Nat) : List Char := toDecimalAux (n + 1) n

/-- Python `f"T{n:04d}"`: the letter `T` followed by the decimal rendering of
`n`, zero-padded on the left to at least 4 digits. -/
def ticketIdString (n : Nat) : String :=
  ⟨'T' :: (List.replicate (4 - (toDecimal n).length) '0' ++ toDecimal n)⟩

/-- `generate_ticket_id`: produce the id for the current sequence number and
advance the sequence counter. -/
def generate_ticket_id (l : Ledger) : String × Ledger :=
  (ticketIdString l.next_ticket_number,
    { l with next_ticket_number := l.next_ticket_number + 1 })

/-- The multiset of slot numbers held by active tickets
(`{ticket['slot_number'] for ticket in active_tickets.values()}`,
as a list in dictionary order). -/
def slotsOf (l : Ledger) : List Nat := l.active_tickets.map (·.slot_number)

/-- `find_next_available_slot`: first `i` in `1..TOTAL_SLOTS` whose slot
number is not held by an active ticket, `none` if every slot is held. -/
def find_next_available_slot (l : Ledger) : Option Nat :=
  (List.range' 1 TOTAL_SLOTS).find? (fun i => !((slotsOf l).contains i))

/-- `calculate_cost`: elapsed seconds, rounded up to whole hours
(`math.ceil(total_seconds / 3600)`), floored at a minimum of one hour;
cost is hours times `HOURLY_RATE`. -/
def calculate_cost (entry_time exit_time : Int) : Int × Int :=
  let total_seconds : Int := exit_time - entry_time
  let ceiled : Int := ⌈(total_seconds : ℚ) / 3600⌉
  let duration_hours : Int := if ceiled < 1 then 1 else ceiled
  (duration_hours, duration_hours * HOURLY_RATE)

/-- Outcome of the `POST /api/entries` handler. -/
inductive EntryResult where
  | validationError
  | lotFull
  | lotFullDesync
  | created (t : Ticket)
  deriving DecidableEq, Repr

/-- `create_entry`: check-in.  The argument `plate` is the JSON field
`plate_number` (`none` when absent). -/
def create_entry (l : Ledger) (plate : Option String) (now : Int) :
    EntryResult × Ledger :=
  match plate with
  | none => (EntryResult.validationError, l)
  | some raw =>
    if pyStrip raw = "" then (EntryResult.validationError, l)
    else
      if (TOTAL_SLOTS : Int) ≤ l.occupied_slots_count then
        (EntryResult.lotFull, l)
      else
        match find_next_available_slot l with
        | none =>
          (EntryResult.lotFullDesync,
            { l with occupied_slots_count := (l.active_tickets.length : Int) })
        | some slot_number =>
          let t : Ticket :=
            { ticket_id := (generate_ticket_id l).1,
              plate_number := pyToUpper (pyStrip raw),
              slot_number := slot_number,
              entry_time := now }
          (EntryResult.created t,
            { (generate_ticket_id l).2 with
                active_tickets := l.active_tickets ++ [t],
                occupied_slots_count := l.occupied_slots_count + 1 })

/-- Outcome of the `POST /api/exits` handler. -/
inductive ExitResult where
  | validationError
  | ticketNotFound
  | checkedOut (t : Ticket) (duration_hours : Int) (cost : Int)
  deriving DecidableEq, Repr

/-- `create_exit`: check-out.  The argument `tid` is the JSON field
`ticket_id` (`none` when absent). -/
def create_exit (l : Ledger) (tid : Option String) (now : Int) :
    ExitResult × Ledger :=
  match tid with
  | none => (ExitResult.validationError, l)
  | some raw =>
    let ticket_id := pyToUpper (pyStrip raw)
    match l.active_tickets.find? (fun t => t.ticket_id == ticket_id) with
    | none => (ExitResult.ticketNotFound, l)
    | some t =>
      (ExitResult.checkedOut t (calculate_cost t.entry_time now).1
          (calculate_cost t.entry_time now).2,
        { l with
            active_tickets :=
              l.active_tickets.eraseP (fun u => u.ticket_id == ticket_id),
            occupied_slots_count :=
              if 0 < l.occupied_slots_count then l.occupied_slots_count - 1
              else l.occupied_slots_count })

/-- One row of the `GET /api/tickets` response. -/
structure TicketView where
  ticket_id : String
  plate_number : String
  slot_number : Nat
  entry_time : Int
  current_duration_hours : Int
  current_cost : Int
  deriving DecidableEq, Repr

/-- The row built for one active ticket by `get_all_tickets`. -/
def ticketView (now : Int) (t : Ticket) : TicketView :=
  { ticket_id := t.ticket_id,
    plate_number := t.plate_number,
    slot_number := t.slot_number,
    entry_time := t.entry_time,
    current_duration_hours := (calculate_cost t.entry_time now).1,
    current_cost := (calculate_cost t.entry_time now).2 }

/-- `get_all_tickets`: rows for every active ticket, sorted by slot number;
the handler only reads the ledger, so it is returned unchanged. -/
def get_all_tickets (l : Ledger) (now : Int) : List TicketView × Ledger :=
  ((l.active_tickets.map (ticketView now)).mergeSort
      (fun a b => a.slot_number ≤ b.slot_number),
    l)

/-- `GET /api/webhooks/slot-1`: decrement the counter unless it is `0`. -/
def webhook_slot_minus (l : Ledger) : Ledger :=
  { l with
      occupied_slots_count :=
        if 0 < l.occupied_slots_count then l.occupied_slots_count - 1
        else l.occupied_slots_count }

/-- `GET /api/webhooks/slot+1`: increment the counter unless it is
`TOTAL_SLOTS` or more. -/
def webhook_slot_plus (l : Ledger) : Ledger :=
  { l with
      occupied_slots_count :=
        if l.occupied_slots_count < (TOTAL_SLOTS : Int) then
          l.occupied_slots_count + 1
        else l.occupied_slots_count }

/-- Fold a list of check-in requests (plate and timestamp) over the ledger. -/
def run_entries (l : Ledger) (reqs : List (String × Int)) : Ledger :=
  reqs.foldl (fun acc r => (create_entry acc (some r.1) r.2).2) l

/-- The counter half of the documented ledger invariant:
`occupied_count` stays in `[0, TOTAL_SLOTS]`. -/
abbrev CounterWF (l : Ledger) : Prop :=
  0 ≤ l.occupied_slots_count ∧ l.occupied_slots_count ≤ (TOTAL_SLOTS : Int)

/-- The slot half of the documented ledger invariant: active slot numbers are
pairwise distinct and lie in `[1, TOTAL_SLOTS]`. -/
abbrev SlotsWF (l : Ledger) : Prop :=
  (slotsOf l).Nodup ∧ ∀ s ∈ slotsOf l, 1 ≤ s ∧ s ≤ TOTAL_SLOTS

/-- A ledger used to exercise the theorems on concrete data: three occupied
slots `2`, `1`, `3`; counter `3`; sequence counter `4`. -/
def demoLedger : Ledger :=
  { active_tickets :=
      [ { ticket_id := "T0001", plate_number := "B1234AA", slot_number := 2,
          entry_time := 0 },
        { ticket_id := "T0002", plate_number := "D4567BB", slot_number := 1,
          entry_time := 100 },
        { ticket_id := "T0003", plate_number := "F7890CC", slot_number := 3,
          entry_time := 200 } ],
    occupied_slots_count := 3,
    next_ticket_number := 4 }

/-- A ledger whose counter reports the lot full. -/
def fullLedger : Ledger :=
  { active_tickets :=
      [ { ticket_id := "T0001", plate_number := "B1234AA", slot_number := 1,
          entry_time := 0 } ],
    occupied_slots_count := 5,
    next_ticket_number := 2 }

/-- A desynchronized ledger: every slot is held by a ticket, yet the counter
claims only `3` are occupied. -/
def desyncLedger : Ledger :=
  { active_tickets :=
      [ { ticket_id := "T0001", plate_number := "A1", slot_number := 1,
          entry_time := 0 },
        { ticket_id := "T0002", plate_number := "A2", slot_number := 2,
          entry_time := 0 },
        { ticket_id := "T0003", plate_number := "A3", slot_number := 3,
          entry_time := 0 },
        { ticket_id := "T0004", plate_number := "A4", slot_number := 4,
          entry_time := 0 },
        { ticket_id := "T0005", plate_number := "A5", slot_number := 5,
          entry_time := 0 } ],
    occupied_slots_count := 3,
    next_ticket_number := 6 }

/-- Ceiling of `s / 3600` over `ℚ` equals the integer floor-division form. -/
theorem ceil_div_3600 (s : Int) : ⌈((s : ℚ)) / 3600⌉ = (s + 3599) / 3600 := by
  have h1 : (3600 : ℤ) * ((s + 3599) / 3600) + (s + 3599) % 3600 = s + 3599 :=
    Int.ediv_add_emod _ _
  have h2 : 0 ≤ (s + 3599) % 3600 := Int.emod_nonneg _ (by norm_num)
  have h3 : (s + 3599) % 3600 ≤ 3599 := by omega
  have h1' : (3600 : ℚ) * (((s + 3599) / 3600 : ℤ) : ℚ)
      + (((s + 3599) % 3600 : ℤ) : ℚ) = (s : ℚ) + 3599 := by exact_mod_cast h1
  have h2' : (0 : ℚ) ≤ (((s + 3599) % 3600 : ℤ) : ℚ) := by exact_mod_cast h2
  have h3' : (((s + 3599) % 3600 : ℤ) : ℚ) ≤ 3599 := by exact_mod_cast h3
  rw [Int.ceil_eq_iff]
  constructor
  · rw [lt_div_iff₀ (by norm_num : (0 : ℚ) < 3600)]
    linarith
  · rw [div_le_iff₀ (by norm_num : (0 : ℚ) < 3600)]
    linarith

/-- `calculate_cost` in closed integer form. -/
theorem calculate_cost_eq (e x : Int) :
    calculate_cost e x =
      (max 1 ((x - e + 3599) / 3600), max 1 ((x - e + 3599) / 3600) * 3000) := by
  simp only [calculate_cost, HOURLY_RATE]
  rw [ceil_div_3600]
  rw [Prod.mk.injEq]
  constructor <;> omega

/-- C1: `calculate_cost` returns the ceiling of elapsed seconds over 3600,
floored at 1 (also for zero and negative elapsed time), and cost equal to that
duration times `HOURLY_RATE`; elapsed 1 s gives one hour at `HOURLY_RATE`,
elapsed 3600 s gives one hour, elapsed 3601 s gives two hours. -/
theorem C1 :
    (∀ entry_time exit_time : Int,
        calculate_cost entry_time exit_time =
          (max 1 ⌈((exit_time - entry_time : Int) : ℚ) / 3600⌉,
            max 1 ⌈((exit_time - entry_time : Int) : ℚ) / 3600⌉ * HOURLY_RATE)) ∧
    calculate_cost 0 1 = (1, HOURLY_RATE) ∧
    calculate_cost 0 3600 = (1, HOURLY_RATE) ∧
    calculate_cost 0 3601 = (2, 2 * HOURLY_RATE) ∧
    calculate_cost 0 0 = (1, HOURLY_RATE) ∧
    calculate_cost 10 0 = (1, HOURLY_RATE) := by
  refine ⟨?_, ?_, ?_, ?_, ?_, ?_⟩
  · intro e x
    rw [calculate_cost_eq, ceil_div_3600, HOURLY_RATE]
  all_goals rw [calculate_cost_eq]
  all_goals decide

/-- `List.find?` over `range' a n`: a hit is the least index satisfying the
predicate. -/
theorem find?_range'_some {p : Nat → Bool} :
    ∀ (n a s : Nat), (List.range' a n).find? p = some s →
      p s = true ∧ a ≤ s ∧ s < a + n ∧ ∀ j, a ≤ j → j < s → p j = false := by
  intro n
  induction n with
  | zero => intro a s h; simp [List.range'] at h
  | succ n ih =>
    intro a s h
    rw [List.range'_succ] at h
    cases hpa : p a with
    | true =>
      rw [List.find?_cons_of_pos _ hpa] at h
      cases h
      exact ⟨hpa, Nat.le_refl _, by omega, fun j hj1 hj2 => by omega⟩
    | false =>
      rw [List.find?_cons_of_neg _ (by simp [hpa])] at h
      obtain ⟨h1, h2, h3, h4⟩ := ih (a + 1) s h
      refine ⟨h1, by omega, by omega, ?_⟩
      intro j hj1 hj2
      rcases Nat.eq_or_lt_of_le hj1 with hj | hj
      · exact hj ▸ hpa
      · exact h4 j hj hj2

/-- `List.find?` over `range' a n`: a miss means no index satisfies the
predicate. -/
theorem find?_range'_none {p : Nat → Bool} {n a : Nat}
    (h : (List.range' a n).find? p = none) :
    ∀ j, a ≤ j → j < a + n → p j = false := by
  intro j hj1 hj2
  have := List.find?_eq_none.mp h j (by rw [List.mem_range'_1]; omega)
  simpa using this

/-- C2: `find_next_available_slot` returns the smallest slot number in
`[1, TOTAL_SLOTS]` not held by an active ticket, and returns `none` exactly
when every slot number in that range is held. -/
theorem C2 (l : Ledger) :
    (∀ s, find_next_available_slot l = some s →
        1 ≤ s ∧ s ≤ TOTAL_SLOTS ∧ s ∉ slotsOf l ∧
          ∀ j, 1 ≤ j → j < s → j ∈ slotsOf l) ∧
    (find_next_available_slot l = none ↔
        ∀ j, 1 ≤ j → j ≤ TOTAL_SLOTS → j ∈ slotsOf l) := by
  constructor
  · intro s h
    simp only [find_next_available_slot] at h
    obtain ⟨hp, h1, h2, hmin⟩ := find?_range'_some TOTAL_SLOTS 1 s h
    refine ⟨h1, by simp only [TOTAL_SLOTS] at h2 ⊢; omega, by simpa using hp, ?_⟩
    intro j hj1 hj2
    simpa using hmin j hj1 hj2
  · constructor
    · intro h j hj1 hj2
      simp only [find_next_available_slot] at h
      have := find?_range'_none h j hj1 (by simp only [TOTAL_SLOTS] at hj2 ⊢; omega)
      simpa using this
    · intro hall
      cases hfind : find_next_available_slot l with
      | none => rfl
      | some s =>
        simp only [find_next_available_slot] at hfind
        obtain ⟨hp, h1, h2, _⟩ := find?_range'_some TOTAL_SLOTS 1 s hfind
        have hmem : s ∈ slotsOf l :=
          hall s h1 (by simp only [TOTAL_SLOTS] at h2 ⊢; omega)
        simp [hmem] at hp

/-- C2 at the concrete ledger `demoLedger`, whose held slots are
`{1, 2, 3}`: the scan returns slot `4`. -/
theorem C2_witness :
    1 ≤ 4 ∧ 4 ≤ TOTAL_SLOTS ∧ 4 ∉ slotsOf demoLedger ∧
      ∀ j, 1 ≤ j → j < 4 → j ∈ slotsOf demoLedger :=
  (C2 demoLedger).1 4 (by decide)

/-- C3: when the occupancy counter reports the lot full, check-in with any
non-empty plate fails with the lot-full error and the ledger is unchanged,
whatever the actual ticket population. -/
theorem C3 (l : Ledger) (raw : String) (now : Int)
    (hplate : pyStrip raw ≠ "")
    (hfull : (TOTAL_SLOTS : Int) ≤ l.occupied_slots_count) :
    create_entry l (some raw) now = (EntryResult.lotFull, l) := by
  simp only [create_entry, if_neg hplate, if_pos hfull]

/-- C3 at the concrete ledger `fullLedger`: counter `5`, a single ticket. -/
theorem C3_witness :
    create_entry fullLedger (some ("B99ZZ")) 0 = (EntryResult.lotFull, fullLedger) :=
  C3 fullLedger ("B99ZZ") 0 (by decide) (by decide)

/-- C4: when the counter reports space but the slot scan finds none, check-in
resynchronizes the counter to the active-ticket count and fails with the
state-desync error, creating no ticket. -/
theorem C4 (l : Ledger) (raw : String) (now : Int)
    (hplate : pyStrip raw ≠ "")
    (hcount : l.occupied_slots_count < (TOTAL_SLOTS : Int))
    (hscan : find_next_available_slot l = none) :
    create_entry l (some raw) now =
      (EntryResult.lotFullDesync,
        { l with occupied_slots_count := (l.active_tickets.length : Int) }) := by
  simp only [create_entry, if_neg hplate, if_neg (not_le.mpr hcount), hscan]

/-- C4 at the concrete ledger `desyncLedger`: all five slots held, counter
`3`; the counter is reset to `5` and no ticket is created. -/
theorem C4_witness :
    create_entry desyncLedger (some ("D1")) 0 =
      (EntryResult.lotFullDesync,
        { desyncLedger with
            occupied_slots_count := (desyncLedger.active_tickets.length : Int) }) :=
  C4 desyncLedger ("D1") 0 (by decide) (by decide) (by decide)

/-- C5: check-out of an id whose normalized form matches no active ticket
fails with the not-found error and leaves the whole ledger unchanged. -/
theorem C5 (l : Ledger) (raw : String) (now : Int)
    (habsent : ∀ t ∈ l.active_tickets, t.ticket_id ≠ pyToUpper (pyStrip raw)) :
    create_exit l (some raw) now = (ExitResult.ticketNotFound, l) := by
  have hfind :
      l.active_tickets.find? (fun t => t.ticket_id == pyToUpper (pyStrip raw))
        = none := by
    rw [List.find?_eq_none]
    intro t ht
    simpa using habsent t ht
  simp only [create_exit, hfind]

/-- C5 at the concrete ledger `demoLedger` with the unknown id `t9999`
(normalized to `T9999`). -/
theorem C5_witness :
    create_exit demoLedger (some (" t9999 ")) 0 =
      (ExitResult.ticketNotFound, demoLedger) :=
  C5 demoLedger (" t9999 ") 0 (by decide)

/-- A ledger with distinct in-range slot numbers holds at most `TOTAL_SLOTS`
active tickets. -/
theorem length_le_of_slots (l : Ledger) (h : SlotsWF l) :
    l.active_tickets.length ≤ TOTAL_SLOTS := by
  have hsub : slotsOf l ⊆ List.range' 1 TOTAL_SLOTS := by
    intro s hs
    rw [List.mem_range'_1]
    have := h.2 s hs
    omega
  have hlen := (List.subperm_of_subset h.1 hsub).length_le
  simpa [slotsOf] using hlen

/-- C6: every ledger operation keeps `occupied_slots_count` within
`[0, TOTAL_SLOTS]`: both webhooks clamp, check-out floors the decrement at
`0`, and check-in increments only below `TOTAL_SLOTS` (its desync branch
resets the counter to the active-ticket count, which slot-uniqueness bounds
by `TOTAL_SLOTS`). -/
theorem C6 :
    (∀ l, CounterWF l → CounterWF (webhook_slot_minus l)) ∧
    (∀ l, CounterWF l → CounterWF (webhook_slot_plus l)) ∧
    (∀ l tid now, CounterWF l → CounterWF (create_exit l tid now).2) ∧
    (∀ l plate now, CounterWF l → SlotsWF l →
        CounterWF (create_entry l plate now).2) := by
  refine ⟨?_, ?_, ?_, ?_⟩
  · intro l h
    simp only [CounterWF, webhook_slot_minus] at h ⊢
    split <;> omega
  · intro l h
    simp only [CounterWF, webhook_slot_plus] at h ⊢
    split <;> omega
  · intro l tid now h
    cases tid with
    | none => simpa [create_exit] using h
    | some raw =>
      simp only [create_exit]
      cases hfind :
          l.active_tickets.find? (fun t => t.ticket_id == pyToUpper (pyStrip raw)) with
      | none => simpa using h
      | some t =>
        simp only [CounterWF] at h ⊢
        split <;> omega
  · intro l plate now h hs
    cases plate with
    | none => simpa [create_entry] using h
    | some raw =>
      by_cases hp : pyStrip raw = ""
      · simpa [create_entry, hp] using h
      · by_cases hfull : (TOTAL_SLOTS : Int) ≤ l.occupied_slots_count
        · simpa [create_entry, hp, hfull] using h
        · cases hscan : find_next_available_slot l with
          | none =>
            have hlen := length_le_of_slots l hs
            simp only [create_entry, if_neg hp, if_neg hfull, hscan, CounterWF]
            omega
          | some s =>
            simp only [create_entry, if_neg hp, if_neg hfull, hscan,
              generate_ticket_id, CounterWF] at h ⊢
            omega

/-- C6 exercised on concrete ledgers: webhook increment on `demoLedger`,
check-out of `T0001` from `demoLedger`, and the desync check-in on
`desyncLedger` all keep the counter in range. -/
theorem C6_witness :
    CounterWF (webhook_slot_plus demoLedger) ∧
    CounterWF (create_exit demoLedger (some ("T0001")) 3600).2 ∧
    CounterWF (create_entry desyncLedger (some ("G77")) 0).2 :=
  ⟨C6.2.1 demoLedger (by decide),
   C6.2.2.1 demoLedger (some ("T0001")) 3600 (by decide),
   C6.2.2.2 desyncLedger (some ("G77")) 0 (by decide) (by decide)⟩

/-- A successful slot scan yields a slot in `[1, TOTAL_SLOTS]` that no active
ticket holds. -/
theorem find_slot_mem_range (l : Ledger) (s : Nat)
    (h : find_next_available_slot l = some s) :
    1 ≤ s ∧ s ≤ TOTAL_SLOTS ∧ s ∉ slotsOf l := by
  simp only [find_next_available_slot] at h
  obtain ⟨hp, h1, h2, _⟩ := find?_range'_some TOTAL_SLOTS 1 s h
  exact ⟨h1, by simp only [TOTAL_SLOTS] at h2 ⊢; omega, by simpa using hp⟩

/-- One check-in either leaves the ticket list unchanged or appends a single
ticket whose slot came from the scan. -/
theorem tickets_step (l : Ledger) (plate : Option String) (now : Int) :
    (create_entry l plate now).2.active_tickets = l.active_tickets ∨
    (∃ t1, find_next_available_slot l = some t1.slot_number ∧
        (create_entry l plate now).2.active_tickets = l.active_tickets ++ [t1]) := by
  cases plate with
  | none => left; simp [create_entry]
  | some raw =>
    by_cases hp : pyStrip raw = ""
    · left; simp [create_entry, hp]
    · by_cases hfull : (TOTAL_SLOTS : Int) ≤ l.occupied_slots_count
      · left; simp [create_entry, hp, hfull]
      · cases hscan : find_next_available_slot l with
        | none => left; simp [create_entry, hp, hfull, hscan]
        | some s =>
          right
          refine ⟨{ ticket_id := (generate_ticket_id l).1,
                    plate_number := pyToUpper (pyStrip raw),
                    slot_number := s, entry_time := now }, rfl, ?_⟩
          simp [create_entry, hp, hfull, hscan]

/-- C7: along any sequence of check-ins (in particular any of length at most
`TOTAL_SLOTS`) from a ledger with pairwise-distinct active slot numbers, the
slot numbers stay pairwise distinct, and every ticket not already present at
the start received a slot number in `[1, TOTAL_SLOTS]`. -/
theorem C7 (l : Ledger) (reqs : List (String × Int))
    (hlen : reqs.length ≤ TOTAL_SLOTS) (hnd : (slotsOf l).Nodup) :
    (slotsOf (run_entries l reqs)).Nodup ∧
      ∀ t ∈ (run_entries l reqs).active_tickets,
        t ∈ l.active_tickets ∨
          (1 ≤ t.slot_number ∧ t.slot_number ≤ TOTAL_SLOTS) := by
  induction reqs generalizing l with
  | nil =>
    constructor
    · simpa [run_entries] using hnd
    · intro t ht
      left
      simpa [run_entries] using ht
  | cons r rs ih =>
    have hrun : run_entries l (r :: rs) =
        run_entries (create_entry l (some r.1) r.2).2 rs := by
      simp [run_entries]
    have hlen' : rs.length ≤ TOTAL_SLOTS := by
      simp only [List.length_cons] at hlen
      omega
    rcases tickets_step l (some r.1) r.2 with hstep | ⟨t1, hscan, hstep⟩
    · have hnd' : (slotsOf (create_entry l (some r.1) r.2).2).Nodup := by
        simpa [slotsOf, hstep] using hnd
      obtain ⟨H1, H2⟩ := ih (create_entry l (some r.1) r.2).2 hlen' hnd'
      rw [hrun]
      refine ⟨H1, ?_⟩
      intro t ht
      rcases H2 t ht with hmem | hbound
      · left
        rwa [hstep] at hmem
      · right
        exact hbound
    · have hbound1 := find_slot_mem_range l t1.slot_number hscan
      have hnd' : (slotsOf (create_entry l (some r.1) r.2).2).Nodup := by
        rw [slotsOf, hstep, List.map_append]
        simp only [List.map_cons, List.map_nil]
        rw [List.nodup_append]
        refine ⟨hnd, List.nodup_singleton _, ?_⟩
        intro x hx hx1
        simp only [List.mem_singleton] at hx1
        subst hx1
        exact hbound1.2.2 hx
      obtain ⟨H1, H2⟩ := ih (create_entry l (some r.1) r.2).2 hlen' hnd'
      rw [hrun]
      refine ⟨H1, ?_⟩
      intro t ht
      rcases H2 t ht with hmem | hbound
      · rw [hstep, List.mem_append] at hmem
        rcases hmem with hmem | hmem
        · left; exact hmem
        · right
          simp only [List.mem_singleton] at hmem
          subst hmem
          exact ⟨hbound1.1, hbound1.2.1⟩
      · right
        exact hbound

/-- C7 exercised on `demoLedger` with one further check-in. -/
theorem C7_witness :
    (slotsOf (run_entries demoLedger [(("GG11"), 7200)])).Nodup ∧
      ∀ t ∈ (run_entries demoLedger [(("GG11"), 7200)]).active_tickets,
        t ∈ demoLedger.active_tickets ∨
          (1 ≤ t.slot_number ∧ t.slot_number ≤ TOTAL_SLOTS) :=
  C7 demoLedger [(("GG11"), 7200)] (by decide) (by decide)

/-- C8: the ticket listing is a permutation of one row per active ticket
(each row carrying the duration and cost of `calculate_cost` against `now`),
it is sorted by ascending slot number, and the ledger is returned unchanged. -/
theorem C8 (l : Ledger) (now : Int) :
    List.Perm (get_all_tickets l now).1 (l.active_tickets.map (ticketView now)) ∧
    List.Pairwise (fun a b => a.slot_number ≤ b.slot_number)
      (get_all_tickets l now).1 ∧
    (get_all_tickets l now).2 = l := by
  refine ⟨?_, ?_, rfl⟩
  · simpa [get_all_tickets] using
      List.mergeSort_perm (l.active_tickets.map (ticketView now))
        (fun a b => a.slot_number ≤ b.slot_number)
  · have h := @List.sorted_mergeSort TicketView
      (fun a b => decide (a.slot_number ≤ b.slot_number))
      (fun a b c h₁ h₂ => by simp at *; omega)
      (fun a b => by simp; omega)
      (l.active_tickets.map (ticketView now))
    simp only [get_all_tickets]
    exact List.Pairwise.imp (by simp) h

/-- Value of a list of decimal digit characters, most significant first. -/
def ofDecimal (ds : List Char) : Nat :=
  ds.foldl (fun a c => 10 * a + (c.toNat - 48)) 0

/-- Appending one digit multiplies the value by ten and adds the digit. -/
theorem ofDecimal_append (xs : List Char) (c : Char) :
    ofDecimal (xs ++ [c]) = 10 * ofDecimal xs + (c.toNat - 48) := by
  simp [ofDecimal, List.foldl_append]

/-- Code point of the digit character of `d < 10`. -/
theorem digitChar_toNat (d : Nat) (h : d < 10) : (digitChar d).toNat = 48 + d := by
  interval_cases d <;> decide

/-- With enough fuel, reading the rendered digits back gives the number. -/
theorem ofDecimal_toDecimalAux :
    ∀ (fuel n : Nat), n < fuel → ofDecimal (toDecimalAux fuel n) = n := by
  intro fuel
  induction fuel with
  | zero => intro n h; omega
  | succ fuel ih =>
    intro n h
    by_cases h10 : n < 10
    · simp only [toDecimalAux, if_pos h10]
      simp [ofDecimal, digitChar_toNat n h10]
    · have hd : n / 10 < fuel := by omega
      simp only [toDecimalAux, if_neg h10]
      rw [ofDecimal_append, ih (n / 10) hd, digitChar_toNat (n % 10) (by omega)]
      omega

/-- Reading the decimal rendering back gives the number. -/
theorem ofDecimal_toDecimal (n : Nat) : ofDecimal (toDecimal n) = n :=
  ofDecimal_toDecimalAux (n + 1) n (by omega)

/-- Leading zero characters do not change the value. -/
theorem ofDecimal_replicate_zero (k : Nat) (ds : List Char) :
    ofDecimal (List.replicate k '0' ++ ds) = ofDecimal ds := by
  induction k with
  | zero => simp
  | succ k ih =>
    have h0 : 10 * 0 + (('0').toNat - 48) = 0 := by decide
    simp only [List.replicate_succ, List.cons_append, ofDecimal, List.foldl_cons]
    simp only [ofDecimal] at ih
    rw [h0]
    exact ih

/-- Distinct sequence numbers render to distinct padded ticket ids. -/
theorem ticketIdString_injective (m n : Nat)
    (h : ticketIdString m = ticketIdString n) : m = n := by
  have hd : ('T' :: (List.replicate (4 - (toDecimal m).length) '0' ++ toDecimal m))
      = ('T' :: (List.replicate (4 - (toDecimal n).length) '0' ++ toDecimal n)) :=
    congrArg String.data h
  injection hd with hhead htail
  have hval := congrArg ofDecimal htail
  rwa [ofDecimal_replicate_zero, ofDecimal_replicate_zero,
    ofDecimal_toDecimal, ofDecimal_toDecimal] at hval

/-- C9: ticket ids are `T` plus the 4-digit zero-padded sequence number; the
sequence starts at `1` (so the first id is `T0001`), advances by one on every
ticket creation, is untouched by check-out, and distinct sequence numbers give
distinct ids. -/
theorem C9 :
    initial_ledger.next_ticket_number = 1 ∧
    ticketIdString 1 = ("T0001") ∧
    (∀ l, (generate_ticket_id l).1 = ticketIdString l.next_ticket_number ∧
        (generate_ticket_id l).2.next_ticket_number = l.next_ticket_number + 1) ∧
    (∀ l raw now t l',
        create_entry l (some raw) now = (EntryResult.created t, l') →
          t.ticket_id = ticketIdString l.next_ticket_number ∧
          l'.next_ticket_number = l.next_ticket_number + 1) ∧
    (∀ l tid now,
        (create_exit l tid now).2.next_ticket_number = l.next_ticket_number) ∧
    (∀ m n : Nat, m ≠ n → ticketIdString m ≠ ticketIdString n) := by
  refine ⟨rfl, by decide, fun l => ⟨rfl, rfl⟩, ?_, ?_, ?_⟩
  · intro l raw now t l' h
    by_cases hp : pyStrip raw = ""
    · simp [create_entry, hp] at h
    · by_cases hfull : (TOTAL_SLOTS : Int) ≤ l.occupied_slots_count
      · simp [create_entry, hp, hfull] at h
      · cases hscan : find_next_available_slot l with
        | none => simp [create_entry, hp, hfull, hscan] at h
        | some s =>
          simp only [create_entry, if_neg hp, if_neg hfull, hscan,
            generate_ticket_id, Prod.mk.injEq, EntryResult.created.injEq] at h
          obtain ⟨ht, hl⟩ := h
          constructor
          · rw [← ht]
          · rw [← hl]
  · intro l tid now
    cases tid with
    | none => simp [create_exit]
    | some raw =>
      cases hfind :
          l.active_tickets.find? (fun t => t.ticket_id == pyToUpper (pyStrip raw)) with
      | none => simp [create_exit, hfind]
      | some t => simp [create_exit, hfind]
  · intro m n hne heq
    exact hne (ticketIdString_injective m n heq)

/-- The ticket produced by the very first check-in. -/
def firstTicket : Ticket :=
  { ticket_id := ("T0001"), plate_number := ("B555"),
    slot_number := 1, entry_time := 0 }

/-- The ledger after the very first check-in. -/
def afterFirst : Ledger :=
  { active_tickets := [firstTicket], occupied_slots_count := 1,
    next_ticket_number := 2 }

/-- C9 exercised concretely: the first check-in from the initial state yields
id `T0001` and advances the sequence to `2`; ids `T0003` and `T0007` differ. -/
theorem C9_witness :
    firstTicket.ticket_id = ticketIdString initial_ledger.next_ticket_number ∧
    afterFirst.next_ticket_number = initial_ledger.next_ticket_number + 1 ∧
    ticketIdString 3 ≠ ticketIdString 7 := by
  have h := C9.2.2.2.1 initial_ledger ("b555") 0 firstTicket afterFirst (by decide)
  exact ⟨h.1, h.2, C9.2.2.2.2.2 3 7 (by decide)⟩

/-- C10: a failed check-in (missing or empty plate, full counter, or the
desync branch) leaves both the ticket list and the sequence counter
unchanged, while a successful one appends exactly its ticket and advances the
sequence by exactly one. -/
theorem C10 (l : Ledger) (plate : Option String) (now : Int) :
    match create_entry l plate now with
    | (EntryResult.created t, l') =>
        l'.active_tickets = l.active_tickets ++ [t] ∧
        l'.next_ticket_number = l.next_ticket_number + 1
    | (_, l') =>
        l'.active_tickets = l.active_tickets ∧
        l'.next_ticket_number = l.next_ticket_number := by
  cases plate with
  | none => simp [create_entry]
  | some raw =>
    by_cases hp : pyStrip raw = ""
    · simp [create_entry, hp]
    · by_cases hfull : (TOTAL_SLOTS : Int) ≤ l.occupied_slots_count
      · simp [create_entry, hp, hfull]
      · cases hscan : find_next_available_slot l with
        | none => simp [create_entry, hp, hfull, hscan]
        | some s => simp [create_entry, hp, hfull, hscan, generate_ticket_id]
